import Mathlib

/-!
Verification development for the sector-sync task-tracking data core.

The program under study is a task-tracking dashboard whose entire
data/authorization core lives in a SQL migration
(src/supabase/migrations/20250919013117_... .sql): four tables
(sectors, tasks, task_history, profiles), row-level-security policies,
and three trigger functions (update_updated_at_column, handle_new_user,
log_task_status_change), plus a handful of client-side handlers
(useAuth checkSession, TaskList handleCloseTask, TaskForm handleSubmit,
SectorManagement handleDeleteSector).

The shallow embedding below models UUIDs as Nat, timestamps as Nat,
rows as structures mirroring the table columns, and database state as
lists of rows.  Triggers are pure functions on rows; the store write
path composes them exactly as the trigger declarations order them
(BEFORE UPDATE trigger, then the row write, then the AFTER UPDATE
trigger).
-/

namespace SectorSync

/-- SQL enum task_type ('daily', 'monthly', 'temporary'). -/
inductive TaskType
  | daily
  | monthly
  | temporary
deriving DecidableEq, Repr

/-- SQL enum task_urgency ('not_urgent', 'relatively_urgent', 'urgent'). -/
inductive TaskUrgency
  | not_urgent
  | relatively_urgent
  | urgent
deriving DecidableEq, Repr

/-- SQL enum task_status ('pending', 'delivered', 'not_delivered'). -/
inductive TaskStatus
  | pending
  | delivered
  | not_delivered
deriving DecidableEq, Repr

/-- SQL enum user_role ('ceo', 'collaborator'). -/
inductive UserRole
  | ceo
  | collaborator
deriving DecidableEq, Repr

/-- Row of public.sectors: id UUID PK, name TEXT NOT NULL, created_at TIMESTAMPTZ. -/
structure SectorRow where
  id : Nat
  name : String
  created_at : Nat
deriving DecidableEq, Repr

/-- Row of public.tasks, one field per column of the CREATE TABLE.
description and ceo_observation are nullable (Option); the others are
NOT NULL. -/
structure TaskRow where
  id : Nat
  title : String
  description : Option String
  type : TaskType
  sector_id : Nat
  deadline : Nat
  urgency : TaskUrgency
  status : TaskStatus
  ceo_observation : Option String
  created_at : Nat
  updated_at : Nat
deriving DecidableEq, Repr

/-- Row of public.task_history: old_status is nullable, new_status NOT NULL. -/
structure TaskHistoryRow where
  id : Nat
  task_id : Nat
  old_status : Option TaskStatus
  new_status : TaskStatus
  observation : Option String
  updated_at : Nat
deriving DecidableEq, Repr

/-- Row of public.profiles: id references auth.users(id), role NOT NULL
DEFAULT 'collaborator', full_name nullable. -/
structure ProfileRow where
  id : Nat
  role : UserRole
  full_name : Option String
  created_at : Nat
deriving DecidableEq, Repr

/-- The four public tables of the relational store, each as a list of rows. -/
structure DBState where
  sectors : List SectorRow
  tasks : List TaskRow
  task_history : List TaskHistoryRow
  profiles : List ProfileRow
deriving DecidableEq, Repr

/-- Embeds public.update_updated_at_column(): `NEW.updated_at = now();
RETURN NEW;`.  It is installed as a BEFORE UPDATE trigger on tasks, so it
rewrites the candidate NEW row before the write lands. -/
def update_updated_at_column (now : Nat) (new : TaskRow) : TaskRow :=
  { new with updated_at := now }

/-- Embeds public.log_task_status_change(): `IF OLD.status IS DISTINCT FROM
NEW.status THEN INSERT INTO task_history (task_id, old_status, new_status,
observation) VALUES (NEW.id, OLD.status, NEW.status, NEW.ceo_observation)`.
Returns the list of history rows the AFTER UPDATE trigger inserts (one when
the status changed, none otherwise); histId and now stand for the inserted
row's defaulted id and updated_at columns. -/
def log_task_status_change (old new : TaskRow) (histId now : Nat) : List TaskHistoryRow :=
  if old.status ≠ new.status then
    [{ id := histId, task_id := new.id, old_status := some old.status,
       new_status := new.status, observation := new.ceo_observation,
       updated_at := now }]
  else []

/-- A SET clause of an UPDATE statement on public.tasks: each field is
`some v` when the client's payload mentions the column and `none` when it
does not.  For the nullable columns the inner Option is the written value. -/
structure TaskUpdate where
  title : Option String
  description : Option (Option String)
  type : Option TaskType
  sector_id : Option Nat
  deadline : Option Nat
  urgency : Option TaskUrgency
  status : Option TaskStatus
  ceo_observation : Option (Option String)
  updated_at : Option Nat
deriving DecidableEq, Repr

/-- The candidate NEW row an UPDATE statement produces from the OLD row,
before any trigger runs: mentioned columns take the payload value, the
rest keep the OLD value. -/
def applyTaskUpdate (u : TaskUpdate) (row : TaskRow) : TaskRow :=
  { row with
    title := u.title.getD row.title,
    description := u.description.getD row.description,
    type := u.type.getD row.type,
    sector_id := u.sector_id.getD row.sector_id,
    deadline := u.deadline.getD row.deadline,
    urgency := u.urgency.getD row.urgency,
    status := u.status.getD row.status,
    ceo_observation := u.ceo_observation.getD row.ceo_observation,
    updated_at := u.updated_at.getD row.updated_at }

/-- The row actually written by an UPDATE on tasks: the client's candidate
row, rewritten by the BEFORE UPDATE trigger update_tasks_updated_at. -/
def updateTaskRow (old : TaskRow) (u : TaskUpdate) (now : Nat) : TaskRow :=
  update_updated_at_column now (applyTaskUpdate u old)

/-- One UPDATE ... WHERE id = taskId on public.tasks, with both triggers:
the BEFORE UPDATE timestamp trigger rewrites the row, the write replaces
the matching row, and the AFTER UPDATE audit trigger appends to
task_history.  A missing id updates nothing. -/
def updateTask (s : DBState) (taskId : Nat) (u : TaskUpdate) (now histId : Nat) : DBState :=
  match s.tasks.find? (fun t => t.id == taskId) with
  | none => s
  | some old =>
      { s with
        tasks := s.tasks.map (fun t => if t.id == taskId then updateTaskRow old u now else t),
        task_history := s.task_history ++ log_task_status_change old (updateTaskRow old u now) histId now }

/-- The operation classes row-level-security policies distinguish. -/
inductive Operation
  | select
  | insert
  | update
  | delete
deriving DecidableEq, Repr

/-- Outcomes with which the store rejects an operation: a row-level-security
rejection, the ON DELETE RESTRICT foreign key on tasks.sector_id, or a
foreign key violation on insert. -/
inductive StoreError
  | permissionDenied
  | foreignKeyRestrict
  | foreignKeyViolation
deriving DecidableEq, Repr

/-- The EXISTS subquery shared by the "Only CEO can manage ..." policies:
`EXISTS (SELECT 1 FROM profiles WHERE profiles.id = auth.uid() AND
profiles.role = 'ceo')`.  uid = none models an unauthenticated caller
(auth.uid() IS NULL). -/
def ceoProfileExists (profiles : List ProfileRow) (uid : Option Nat) : Bool :=
  profiles.any (fun p => some p.id == uid && p.role == UserRole.ceo)

/-- RLS on public.sectors: "Anyone can view sectors" (FOR SELECT USING true)
or "Only CEO can manage sectors" (FOR ALL USING the ceo-profile EXISTS).
Policies are permissive, so an operation is allowed when any applicable
policy passes. -/
def sectorsPolicyAllows (s : DBState) (uid : Option Nat) : Operation → Bool
  | Operation.select => true
  | _ => ceoProfileExists s.profiles uid

/-- RLS on public.tasks: "Anyone can view tasks" (FOR SELECT USING true) or
"Only CEO can manage tasks" (FOR ALL USING the ceo-profile EXISTS). -/
def tasksPolicyAllows (s : DBState) (uid : Option Nat) : Operation → Bool
  | Operation.select => true
  | _ => ceoProfileExists s.profiles uid

/-- A SELECT on public.sectors as the policy layer evaluates it. -/
def selectSectors (s : DBState) (uid : Option Nat) : Except StoreError (List SectorRow) :=
  if sectorsPolicyAllows s uid Operation.select then Except.ok s.sectors
  else Except.error StoreError.permissionDenied

/-- A SELECT on public.tasks as the policy layer evaluates it. -/
def selectTasks (s : DBState) (uid : Option Nat) : Except StoreError (List TaskRow) :=
  if tasksPolicyAllows s uid Operation.select then Except.ok s.tasks
  else Except.error StoreError.permissionDenied

/-- The policy gate a mutating statement on public.sectors must pass before
its row work happens; failing it is the store's permission-denied outcome. -/
def sectorsWriteGate (s : DBState) (uid : Option Nat) (op : Operation) : Except StoreError Unit :=
  if sectorsPolicyAllows s uid op then Except.ok ()
  else Except.error StoreError.permissionDenied

/-- The policy gate a mutating statement on public.tasks must pass. -/
def tasksWriteGate (s : DBState) (uid : Option Nat) (op : Operation) : Except StoreError Unit :=
  if tasksPolicyAllows s uid op then Except.ok ()
  else Except.error StoreError.permissionDenied

/-- DELETE FROM sectors WHERE id = sectorId, under the
`tasks.sector_id REFERENCES sectors(id) ON DELETE RESTRICT` foreign key:
if any task still references the sector the store refuses and the state is
unchanged (the error branch returns no new state); otherwise the sector
row is removed and nothing else is touched. -/
def deleteSector (s : DBState) (sectorId : Nat) : Except StoreError DBState :=
  if s.tasks.any (fun t => t.sector_id == sectorId) then
    Except.error StoreError.foreignKeyRestrict
  else
    Except.ok { s with sectors := s.sectors.filter (fun sec => sec.id != sectorId) }

/-- The `raw_user_meta_data` of an auth.users row, restricted to the one
key handle_new_user reads: `->> 'full_name'`, NULL when absent. -/
structure UserMetaData where
  full_name : Option String
deriving DecidableEq, Repr

/-- The NEW row of auth.users as seen by the on_auth_user_created trigger. -/
structure AuthUser where
  id : Nat
  email : String
  raw_user_meta_data : UserMetaData
deriving DecidableEq, Repr

/-- Embeds public.handle_new_user(): INSERT INTO profiles (id, full_name,
role) VALUES (NEW.id, COALESCE(NEW.raw_user_meta_data ->> 'full_name', ''),
CASE WHEN NEW.email = 'ceo@company.com' THEN 'ceo' ELSE 'collaborator' END);
now stands for the inserted row's defaulted created_at.  It is a plain
INSERT appended to the table: existing profile rows are not touched. -/
def handle_new_user (new : AuthUser) (now : Nat) (profiles : List ProfileRow) : List ProfileRow :=
  profiles ++
    [{ id := new.id,
       full_name := some (new.raw_user_meta_data.full_name.getD ""),
       role := if new.email = "ceo@company.com" then UserRole.ceo else UserRole.collaborator,
       created_at := now }]

/-- The column list TaskForm.handleSubmit sends on insert: title,
description, type, sector_id, deadline, urgency — never status,
ceo_observation, created_at or updated_at, which take table defaults. -/
structure TaskInsert where
  title : String
  description : Option String
  type : TaskType
  sector_id : Nat
  deadline : Nat
  urgency : TaskUrgency
deriving DecidableEq, Repr

/-- INSERT INTO tasks with TaskForm's column list: the foreign key
tasks.sector_id → sectors.id must resolve, and the omitted columns take
their declared defaults (status 'pending', ceo_observation NULL,
created_at/updated_at now()); newId stands for the defaulted id. -/
def insertTask (s : DBState) (ins : TaskInsert) (newId now : Nat) : Except StoreError DBState :=
  if s.sectors.any (fun sec => sec.id == ins.sector_id) then
    Except.ok { s with tasks := s.tasks ++
      [{ id := newId, title := ins.title, description := ins.description,
         type := ins.type, sector_id := ins.sector_id, deadline := ins.deadline,
         urgency := ins.urgency, status := TaskStatus.pending,
         ceo_observation := none, created_at := now, updated_at := now }] }
  else Except.error StoreError.foreignKeyViolation

/-- The update payload TaskList.handleCloseTask sends:
`{ status, ceo_observation: observation || null }` — JavaScript `||` maps
the empty observation string to null and keeps any other string verbatim;
no other column is mentioned. -/
def handleCloseTask (status : TaskStatus) (observation : String) : TaskUpdate :=
  { title := none, description := none, type := none, sector_id := none,
    deadline := none, urgency := none,
    status := some status,
    ceo_observation := some (if observation = "" then none else some observation),
    updated_at := none }

/-- One write performed inside the store's task-update path, in the order
the trigger declarations impose. -/
inductive WriteEvent
  | taskWrite (row : TaskRow)
  | historyInsert (row : TaskHistoryRow)
deriving DecidableEq, Repr

/-- Whether an event is the task-row write. -/
def WriteEvent.isTaskWrite : WriteEvent → Bool
  | WriteEvent.taskWrite _ => true
  | WriteEvent.historyInsert _ => false

/-- Whether an event is a task_history insert. -/
def WriteEvent.isHistoryInsert : WriteEvent → Bool
  | WriteEvent.taskWrite _ => false
  | WriteEvent.historyInsert _ => true

/-- The ordered writes of one UPDATE on tasks: the BEFORE UPDATE trigger
update_tasks_updated_at has already rewritten the row (folded into
updateTaskRow), then the row write lands, then the AFTER UPDATE trigger
log_task_status_change performs its inserts.  All of it commits as one
atomic transaction. -/
def updateTaskEvents (old : TaskRow) (u : TaskUpdate) (now histId : Nat) : List WriteEvent :=
  WriteEvent.taskWrite (updateTaskRow old u now) ::
    (log_task_status_change old (updateTaskRow old u now) histId now).map WriteEvent.historyInsert

/-- A session of the identity store, reduced to the user id it carries. -/
structure Session where
  user_id : Nat
deriving DecidableEq, Repr

/-- The state the useAuth hook exposes: user, session, profile, loading. -/
structure BridgeState where
  user : Option Nat
  session : Option Session
  profile : Option ProfileRow
  loading : Bool
deriving DecidableEq, Repr

/-- Embeds the onAuthStateChange listener of useAuth: on every session
event it stores the session and its user; with a user present it re-fetches
the profile and stores whatever comes back (a failed fetch is tolerated as
none), with no user it clears the profile. -/
def onAuthStateChange (session : Option Session) (fetchProfile : Nat → Option ProfileRow)
    (b : BridgeState) : BridgeState :=
  match session with
  | some s =>
      { b with session := some s, user := some s.user_id,
               profile := fetchProfile s.user_id }
  | none => { b with session := none, user := none, profile := none }

/-- Embeds the startup checkSession path of useAuth.  stored is the session
supabase.auth.getSession returns; fetchProfile is the profiles-by-id query,
returning none when the fetch errors or finds no row.  When a session
exists but its profile is missing, the hook awaits supabase.auth.signOut(),
which clears the stored session and delivers a SIGNED_OUT event to the
already-registered onAuthStateChange listener, and then clears the local
profile; the finally block always ends loading. -/
def checkSession (stored : Option Session) (fetchProfile : Nat → Option ProfileRow)
    (b : BridgeState) : BridgeState :=
  let afterFetch :=
    match stored with
    | some s =>
        let b1 := { b with session := some s, user := some s.user_id }
        match fetchProfile s.user_id with
        | none => { onAuthStateChange none fetchProfile b1 with profile := none }
        | some p => { b1 with profile := some p }
    | none => { b with session := none, user := none, profile := none }
  { afterFetch with loading := false }

/-- A concrete sector, for evaluating the operations on closed inputs. -/
def sampleSector : SectorRow :=
  { id := 1, name := "Coordination", created_at := 0 }

/-- A concrete pending task referencing sampleSector. -/
def sampleTask : TaskRow :=
  { id := 1, title := "Q1 Report", description := none, type := TaskType.monthly,
    sector_id := 1, deadline := 100, urgency := TaskUrgency.urgent,
    status := TaskStatus.pending, ceo_observation := none,
    created_at := 0, updated_at := 0 }

/-- A concrete collaborator profile. -/
def sampleCollaborator : ProfileRow :=
  { id := 9, role := UserRole.collaborator, full_name := some "Ana", created_at := 0 }

/-- A concrete store state: one sector, one pending task referencing it,
no history, one collaborator profile. -/
def sampleState : DBState :=
  { sectors := [sampleSector], tasks := [sampleTask], task_history := [],
    profiles := [sampleCollaborator] }

/-- A concrete store state whose sector has no referencing tasks. -/
def sampleStateNoTasks : DBState :=
  { sectors := [sampleSector], tasks := [], task_history := [],
    profiles := [sampleCollaborator] }

/-- Claim C1: for every Task update where the status value after the write
differs from the one before it, exactly one TaskHistory row is appended,
with old_status the pre-update status, new_status the post-update status,
and observation the ceo_observation as written; when the status is
unchanged (including edits to non-status fields) no history row is
appended. -/
theorem c1_status_change_audit
    (s : DBState) (taskId : Nat) (u : TaskUpdate) (now histId : Nat) (old : TaskRow)
    (hfind : s.tasks.find? (fun t => t.id == taskId) = some old) :
    ((updateTaskRow old u now).status ≠ old.status →
      (updateTask s taskId u now histId).task_history =
        s.task_history ++
          [{ id := histId, task_id := (updateTaskRow old u now).id,
             old_status := some old.status,
             new_status := (updateTaskRow old u now).status,
             observation := (updateTaskRow old u now).ceo_observation,
             updated_at := now }]) ∧
    ((updateTaskRow old u now).status = old.status →
      (updateTask s taskId u now histId).task_history = s.task_history) := by
  constructor
  · intro hne
    simp only [updateTask, hfind, log_task_status_change]
    rw [if_pos (Ne.symm hne)]
  · intro heq
    simp only [updateTask, hfind, log_task_status_change]
    rw [if_neg (by simp [heq]), List.append_nil]

/-- Witness for C1: closing the sample pending task as delivered appends
exactly the expected history row, and an update that leaves the status
pending appends none. -/
theorem c1_status_change_audit_witness :
    (updateTask sampleState 1 (handleCloseTask TaskStatus.delivered "done early") 5 7).task_history =
      [{ id := 7, task_id := 1, old_status := some TaskStatus.pending,
         new_status := TaskStatus.delivered, observation := some "done early",
         updated_at := 5 }] ∧
    (updateTask sampleState 1 (handleCloseTask TaskStatus.pending "") 5 7).task_history = [] := by
  constructor
  · have h := (c1_status_change_audit sampleState 1
      (handleCloseTask TaskStatus.delivered "done early") 5 7 sampleTask (by decide)).1
      (by decide)
    rw [h]
    decide
  · have h := (c1_status_change_audit sampleState 1
      (handleCloseTask TaskStatus.pending "") 5 7 sampleTask (by decide)).2
      (by decide)
    rw [h]
    rfl

/-- Claim C4: on every Task UPDATE the stored updated_at is unconditionally
overwritten with the current time — even a client-supplied updated_at value
is discarded — so under the store's monotone clock (now at least the
previous updated_at) the new updated_at is at least the previous one. -/
theorem c4_updated_at_overwritten
    (old : TaskRow) (u : TaskUpdate) (now : Nat)
    (hclock : old.updated_at ≤ now) :
    (updateTaskRow old u now).updated_at = now ∧
    old.updated_at ≤ (updateTaskRow old u now).updated_at ∧
    (∀ x : Nat, (updateTaskRow old { u with updated_at := some x } now).updated_at = now) := by
  refine ⟨rfl, ?_, fun x => rfl⟩
  simpa [updateTaskRow, update_updated_at_column] using hclock

/-- Witness for C4: at the sample task, the close-task update at time 5
stamps updated_at = 5 ≥ 0, and a payload trying to set updated_at to 999
is still stamped 5. -/
theorem c4_updated_at_overwritten_witness :
    (updateTaskRow sampleTask (handleCloseTask TaskStatus.delivered "done early") 5).updated_at = 5 ∧
    sampleTask.updated_at ≤ (updateTaskRow sampleTask (handleCloseTask TaskStatus.delivered "done early") 5).updated_at ∧
    (∀ x : Nat, (updateTaskRow sampleTask { handleCloseTask TaskStatus.delivered "done early" with updated_at := some x } 5).updated_at = 5) :=
  c4_updated_at_overwritten sampleTask (handleCloseTask TaskStatus.delivered "done early") 5
    (by decide)

/-- Claim C10: the timestamp trigger modifies only updated_at — every other
column of the row it returns equals the corresponding column of the
candidate row the UPDATE itself produced. -/
theorem c10_timestamp_trigger_frame (old : TaskRow) (u : TaskUpdate) (now : Nat) :
    (updateTaskRow old u now).id = (applyTaskUpdate u old).id ∧
    (updateTaskRow old u now).title = (applyTaskUpdate u old).title ∧
    (updateTaskRow old u now).description = (applyTaskUpdate u old).description ∧
    (updateTaskRow old u now).type = (applyTaskUpdate u old).type ∧
    (updateTaskRow old u now).sector_id = (applyTaskUpdate u old).sector_id ∧
    (updateTaskRow old u now).deadline = (applyTaskUpdate u old).deadline ∧
    (updateTaskRow old u now).urgency = (applyTaskUpdate u old).urgency ∧
    (updateTaskRow old u now).status = (applyTaskUpdate u old).status ∧
    (updateTaskRow old u now).ceo_observation = (applyTaskUpdate u old).ceo_observation ∧
    (updateTaskRow old u now).created_at = (applyTaskUpdate u old).created_at :=
  ⟨rfl, rfl, rfl, rfl, rfl, rfl, rfl, rfl, rfl, rfl⟩

/-- Claim C9: the close-task payload writes ceo_observation as null when
the entered observation is the empty string and verbatim otherwise, along
with the chosen status, and this is what lands on the row. -/
theorem c9_close_task_observation
    (old : TaskRow) (status : TaskStatus) (observation : String) (now : Nat) :
    (observation = "" →
      (updateTaskRow old (handleCloseTask status observation) now).ceo_observation = none) ∧
    (observation ≠ "" →
      (updateTaskRow old (handleCloseTask status observation) now).ceo_observation = some observation) ∧
    (updateTaskRow old (handleCloseTask status observation) now).status = status := by
  refine ⟨fun h => ?_, fun h => ?_, rfl⟩
  · simp [updateTaskRow, update_updated_at_column, applyTaskUpdate, handleCloseTask, h]
  · simp [updateTaskRow, update_updated_at_column, applyTaskUpdate, handleCloseTask, h]

/-- Witness for C9: on the sample task, an empty observation lands as
none, the observation "late" lands verbatim, and the status lands as
chosen. -/
theorem c9_close_task_observation_witness :
    (updateTaskRow sampleTask (handleCloseTask TaskStatus.delivered "") 5).ceo_observation = none ∧
    (updateTaskRow sampleTask (handleCloseTask TaskStatus.not_delivered "late") 5).ceo_observation = some "late" ∧
    (updateTaskRow sampleTask (handleCloseTask TaskStatus.not_delivered "late") 5).status = TaskStatus.not_delivered :=
  ⟨(c9_close_task_observation sampleTask TaskStatus.delivered "" 5).1 rfl,
   (c9_close_task_observation sampleTask TaskStatus.not_delivered "late" 5).2.1 (by decide),
   (c9_close_task_observation sampleTask TaskStatus.not_delivered "late" 5).2.2⟩

/-- Claim C3: for every newly created identity-store account, exactly one
Profile row is appended — id is the new account id, full_name the supplied
registration name (empty string when absent), role 'ceo' iff the email is
exactly "ceo@company.com" and 'collaborator' otherwise — and the existing
Profile rows are left untouched. -/
theorem c3_profile_provisioning (new : AuthUser) (now : Nat) (profiles : List ProfileRow) :
    ∃ p : ProfileRow,
      handle_new_user new now profiles = profiles ++ [p] ∧
      p.id = new.id ∧
      p.full_name = some (new.raw_user_meta_data.full_name.getD "") ∧
      (p.role = UserRole.ceo ↔ new.email = "ceo@company.com") ∧
      (new.email ≠ "ceo@company.com" → p.role = UserRole.collaborator) := by
  refine ⟨_, rfl, rfl, rfl, ?_, ?_⟩
  · by_cases h : new.email = "ceo@company.com" <;> simp [h]
  · intro h
    simp [h]

/-- Claim C5: deleting a Sector with at least one referencing Task fails
with the restrict-delete integrity error (so the state, the sector row
included, is unchanged); deleting a Sector with no referencing Task
succeeds, removes only that sector, and never cascades to tasks. -/
theorem c5_sector_delete_restrict (s : DBState) (sectorId : Nat) :
    ((∃ t ∈ s.tasks, t.sector_id = sectorId) →
      deleteSector s sectorId = Except.error StoreError.foreignKeyRestrict) ∧
    ((∀ t ∈ s.tasks, t.sector_id ≠ sectorId) →
      ∃ s2, deleteSector s sectorId = Except.ok s2 ∧
        (∀ sec ∈ s2.sectors, sec.id ≠ sectorId) ∧
        (∀ sec ∈ s.sectors, sec.id ≠ sectorId → sec ∈ s2.sectors) ∧
        s2.tasks = s.tasks ∧ s2.task_history = s.task_history ∧
        s2.profiles = s.profiles) := by
  constructor
  · rintro ⟨t, ht, heq⟩
    have hany : s.tasks.any (fun t => t.sector_id == sectorId) = true :=
      List.any_eq_true.mpr ⟨t, ht, by simp [heq]⟩
    simp [deleteSector, hany]
  · intro h
    have hany : s.tasks.any (fun t => t.sector_id == sectorId) = false := by
      cases hc : s.tasks.any (fun t => t.sector_id == sectorId) with
      | false => rfl
      | true =>
          obtain ⟨t, ht, hbeq⟩ := List.any_eq_true.mp hc
          exact absurd (by simpa using hbeq) (h t ht)
    refine ⟨{ s with sectors := s.sectors.filter (fun sec => sec.id != sectorId) },
      by simp [deleteSector, hany], ?_, ?_, rfl, rfl, rfl⟩
    · intro sec hsec
      have := List.of_mem_filter hsec
      simpa using this
    · intro sec hsec hne
      exact List.mem_filter.mpr ⟨hsec, by simpa using hne⟩

/-- Witness for C5: deleting sector 1 of the sample state (which has a
referencing task) is refused with the integrity error, and deleting it
from the task-free sample state succeeds with tasks untouched. -/
theorem c5_sector_delete_restrict_witness :
    deleteSector sampleState 1 = Except.error StoreError.foreignKeyRestrict ∧
    ∃ s2, deleteSector sampleStateNoTasks 1 = Except.ok s2 ∧
      (∀ sec ∈ s2.sectors, sec.id ≠ 1) ∧ s2.tasks = sampleStateNoTasks.tasks := by
  constructor
  · exact (c5_sector_delete_restrict sampleState 1).1 ⟨sampleTask, by decide, rfl⟩
  · obtain ⟨s2, h1, h2, _, h4, _, _⟩ :=
      (c5_sector_delete_restrict sampleStateNoTasks 1).2 (by decide)
    exact ⟨s2, h1, h2, h4⟩

/-- Claim C8: creating a Task with title "Q1 Report", type monthly, an
existing sector_id, a deadline and urgency urgent succeeds, and the row
read back has status pending, ceo_observation null, and every supplied
field unchanged. -/
theorem c8_create_task_roundtrip
    (s : DBState) (sectorId deadline newId now : Nat)
    (hsec : ∃ sec ∈ s.sectors, sec.id = sectorId) :
    ∃ s2, insertTask s
        { title := "Q1 Report", description := none, type := TaskType.monthly,
          sector_id := sectorId, deadline := deadline, urgency := TaskUrgency.urgent }
        newId now = Except.ok s2 ∧
      ∃ t, s2.tasks = s.tasks ++ [t] ∧
        t.status = TaskStatus.pending ∧ t.ceo_observation = none ∧
        t.title = "Q1 Report" ∧ t.type = TaskType.monthly ∧
        t.sector_id = sectorId ∧ t.deadline = deadline ∧
        t.urgency = TaskUrgency.urgent := by
  obtain ⟨sec, hmem, hid⟩ := hsec
  have hany : s.sectors.any (fun sec => sec.id == sectorId) = true :=
    List.any_eq_true.mpr ⟨sec, hmem, by simp [hid]⟩
  exact ⟨{ s with tasks := s.tasks ++
      [{ id := newId, title := "Q1 Report", description := none,
         type := TaskType.monthly, sector_id := sectorId, deadline := deadline,
         urgency := TaskUrgency.urgent, status := TaskStatus.pending,
         ceo_observation := none, created_at := now, updated_at := now }] },
    by simp [insertTask, hany],
    { id := newId, title := "Q1 Report", description := none,
      type := TaskType.monthly, sector_id := sectorId, deadline := deadline,
      urgency := TaskUrgency.urgent, status := TaskStatus.pending,
      ceo_observation := none, created_at := now, updated_at := now },
    rfl, rfl, rfl, rfl, rfl, rfl, rfl, rfl⟩

/-- Witness for C8: the round-trip at the sample state, whose sector 1
exists, with deadline 100, fresh id 42, at time 3. -/
theorem c8_create_task_roundtrip_witness :
    ∃ s2, insertTask sampleState
        { title := "Q1 Report", description := none, type := TaskType.monthly,
          sector_id := 1, deadline := 100, urgency := TaskUrgency.urgent }
        42 3 = Except.ok s2 ∧
      ∃ t, s2.tasks = sampleState.tasks ++ [t] ∧
        t.status = TaskStatus.pending ∧ t.ceo_observation = none ∧
        t.title = "Q1 Report" ∧ t.type = TaskType.monthly ∧
        t.sector_id = 1 ∧ t.deadline = 100 ∧ t.urgency = TaskUrgency.urgent :=
  c8_create_task_roundtrip sampleState 1 100 42 3 ⟨sampleSector, by decide, rfl⟩

/-- Claim C2: an actor none of whose Profile rows has role 'ceo' is
rejected with permission-denied on every INSERT, UPDATE or DELETE against
Sectors and Tasks, while the same actor's SELECT of Sectors and Tasks
succeeds unconditionally. -/
theorem c2_non_ceo_writes_rejected (s : DBState) (uid : Nat)
    (h : ∀ p ∈ s.profiles, p.id = uid → p.role ≠ UserRole.ceo) :
    sectorsWriteGate s (some uid) Operation.insert = Except.error StoreError.permissionDenied ∧
    sectorsWriteGate s (some uid) Operation.update = Except.error StoreError.permissionDenied ∧
    sectorsWriteGate s (some uid) Operation.delete = Except.error StoreError.permissionDenied ∧
    tasksWriteGate s (some uid) Operation.insert = Except.error StoreError.permissionDenied ∧
    tasksWriteGate s (some uid) Operation.update = Except.error StoreError.permissionDenied ∧
    tasksWriteGate s (some uid) Operation.delete = Except.error StoreError.permissionDenied ∧
    selectSectors s (some uid) = Except.ok s.sectors ∧
    selectTasks s (some uid) = Except.ok s.tasks := by
  have hceo : ceoProfileExists s.profiles (some uid) = false := by
    cases hc : ceoProfileExists s.profiles (some uid) with
    | false => rfl
    | true =>
        obtain ⟨p, hp, hcond⟩ := List.any_eq_true.mp hc
        rw [Bool.and_eq_true] at hcond
        exact absurd (by simpa using hcond.2) (h p hp (by simpa using hcond.1))
  refine ⟨?_, ?_, ?_, ?_, ?_, ?_, rfl, rfl⟩ <;>
    simp [sectorsWriteGate, tasksWriteGate, sectorsPolicyAllows, tasksPolicyAllows, hceo]

/-- Witness for C2: the sample state's only profile is a collaborator
(id 9), so actor 9's writes on sectors and tasks are all rejected while
its reads succeed. -/
theorem c2_non_ceo_writes_rejected_witness :
    sectorsWriteGate sampleState (some 9) Operation.insert = Except.error StoreError.permissionDenied ∧
    sectorsWriteGate sampleState (some 9) Operation.update = Except.error StoreError.permissionDenied ∧
    sectorsWriteGate sampleState (some 9) Operation.delete = Except.error StoreError.permissionDenied ∧
    tasksWriteGate sampleState (some 9) Operation.insert = Except.error StoreError.permissionDenied ∧
    tasksWriteGate sampleState (some 9) Operation.update = Except.error StoreError.permissionDenied ∧
    tasksWriteGate sampleState (some 9) Operation.delete = Except.error StoreError.permissionDenied ∧
    selectSectors sampleState (some 9) = Except.ok sampleState.sectors ∧
    selectTasks sampleState (some 9) = Except.ok sampleState.tasks :=
  c2_non_ceo_writes_rejected sampleState 9 (by decide)

/-- Claim C7: at startup of the session/profile bridge, a session whose
matching Profile fetch returns no row (or errors) ends in the signed-out
state — user, session and profile all null, loading settled to false —
never in an authenticated state without a profile. -/
theorem c7_invalid_session_forces_signout
    (stored : Session) (fetchProfile : Nat → Option ProfileRow) (b : BridgeState)
    (hmiss : fetchProfile stored.user_id = none) :
    checkSession (some stored) fetchProfile b =
      { user := none, session := none, profile := none, loading := false } := by
  simp [checkSession, onAuthStateChange, hmiss]

/-- Witness for C7: a concrete session for user 9 whose profile fetch
finds nothing leaves the bridge fully signed out. -/
theorem c7_invalid_session_forces_signout_witness :
    checkSession (some { user_id := 9 }) (fun _ => none)
        { user := some 9, session := some { user_id := 9 }, profile := none, loading := true } =
      { user := none, session := none, profile := none, loading := false } :=
  c7_invalid_session_forces_signout { user_id := 9 } (fun _ => none)
    { user := some 9, session := some { user_id := 9 }, profile := none, loading := true } rfl

/-- Claim C6 counterexample: for the concrete status-changing close of the
sample task, the store's write path emits the task-row write first and the
history insert second — there is no history insert strictly before the
task write, so the history record is not written before the Task row
reflects the new status. -/
theorem c6_history_before_write_counterexample :
    sampleTask.status ≠
      (updateTaskRow sampleTask (handleCloseTask TaskStatus.delivered "done early") 5).status ∧
    ¬ ∃ i : Fin (updateTaskEvents sampleTask (handleCloseTask TaskStatus.delivered "done early") 5 7).length,
        ∃ j : Fin (updateTaskEvents sampleTask (handleCloseTask TaskStatus.delivered "done early") 5 7).length,
          i.val < j.val ∧
          ((updateTaskEvents sampleTask (handleCloseTask TaskStatus.delivered "done early") 5 7).get i).isHistoryInsert = true ∧
          ((updateTaskEvents sampleTask (handleCloseTask TaskStatus.delivered "done early") 5 7).get j).isTaskWrite = true := by
  decide

/-- Claim C6 (amended): for every status-changing Task update the history
record is written by the AFTER UPDATE trigger immediately after the
task-row write, inside the same atomic transaction: the write path is
exactly [task write, history insert], and the post-update state shows the
new status together with its matching TaskHistory record, so no observable
state reflects the new status without the record. -/
theorem c6_history_atomic_with_status_write
    (s : DBState) (taskId : Nat) (u : TaskUpdate) (now histId : Nat) (old : TaskRow)
    (hfind : s.tasks.find? (fun t => t.id == taskId) = some old)
    (hchange : old.status ≠ (updateTaskRow old u now).status) :
    updateTaskEvents old u now histId =
      [WriteEvent.taskWrite (updateTaskRow old u now),
       WriteEvent.historyInsert
         { id := histId, task_id := (updateTaskRow old u now).id,
           old_status := some old.status,
           new_status := (updateTaskRow old u now).status,
           observation := (updateTaskRow old u now).ceo_observation,
           updated_at := now }] ∧
    updateTaskRow old u now ∈ (updateTask s taskId u now histId).tasks ∧
    ({ id := histId, task_id := (updateTaskRow old u now).id,
       old_status := some old.status,
       new_status := (updateTaskRow old u now).status,
       observation := (updateTaskRow old u now).ceo_observation,
       updated_at := now } : TaskHistoryRow) ∈ (updateTask s taskId u now histId).task_history := by
  have hmem : old ∈ s.tasks := List.mem_of_find?_eq_some hfind
  have hid : (old.id == taskId) = true := by simpa using List.find?_some hfind
  refine ⟨?_, ?_, ?_⟩
  · simp [updateTaskEvents, log_task_status_change, hchange]
  · simp only [updateTask, hfind]
    exact List.mem_map.mpr ⟨old, hmem, by simp [hid]⟩
  · simp only [updateTask, hfind, log_task_status_change]
    rw [if_pos hchange]
    exact List.mem_append_right _ (List.mem_singleton.mpr rfl)

/-- Witness for the amended C6: the concrete close of the sample pending
task as delivered yields the trace [task write, history insert], and the
post-state holds the new row and its history record. -/
theorem c6_history_atomic_with_status_write_witness :
    updateTaskEvents sampleTask (handleCloseTask TaskStatus.delivered "done early") 5 7 =
      [WriteEvent.taskWrite (updateTaskRow sampleTask (handleCloseTask TaskStatus.delivered "done early") 5),
       WriteEvent.historyInsert
         { id := 7,
           task_id := (updateTaskRow sampleTask (handleCloseTask TaskStatus.delivered "done early") 5).id,
           old_status := some sampleTask.status,
           new_status := (updateTaskRow sampleTask (handleCloseTask TaskStatus.delivered "done early") 5).status,
           observation := (updateTaskRow sampleTask (handleCloseTask TaskStatus.delivered "done early") 5).ceo_observation,
           updated_at := 5 }] ∧
    updateTaskRow sampleTask (handleCloseTask TaskStatus.delivered "done early") 5 ∈
      (updateTask sampleState 1 (handleCloseTask TaskStatus.delivered "done early") 5 7).tasks ∧
    ({ id := 7,
       task_id := (updateTaskRow sampleTask (handleCloseTask TaskStatus.delivered "done early") 5).id,
       old_status := some sampleTask.status,
       new_status := (updateTaskRow sampleTask (handleCloseTask TaskStatus.delivered "done early") 5).status,
       observation := (updateTaskRow sampleTask (handleCloseTask TaskStatus.delivered "done early") 5).ceo_observation,
       updated_at := 5 } : TaskHistoryRow) ∈
      (updateTask sampleState 1 (handleCloseTask TaskStatus.delivered "done early") 5 7).task_history :=
  c6_history_atomic_with_status_write sampleState 1
    (handleCloseTask TaskStatus.delivered "done early") 5 7 sampleTask (by decide) (by decide)

end SectorSync
